import Mathlib

/-!
Verification of the tombstone package (pkg/tombstone/tombstone.go).

The Go code persists a `Tombstone` record as a YAML file inside a
"graveyard" directory and watches that directory for changes.  We embed
the package shallowly:

* The three optional fields `Born`, `Died`, `ExitCode` are `Option`s;
  timestamps are modelled as opaque strings (RFC3339 text in Go).
* The serialized file content is modelled at the level the Go struct
  tags determine it: an association list of key/value pairs.  The
  `json:",omitempty"` tag on a nil pointer omits the pair; `json:"-"`
  on `Graveyard`/`Name` keeps them out of the payload.  The yaml
  encoder/decoder (sigs.k8s.io/yaml, a third-party collaborator) is
  assumed to render and parse such a pair list faithfully.
* The filesystem is an association list from paths to payloads; the
  most recent write shadows older entries.
* Fallible OS calls (MkdirAll, os.Create, Marshal, file.Write) are
  driven by an explicit environment of failure flags so every error
  path of the Go code is representable.
-/

/-- Scalar value of one serialized field: timestamps serialize as
strings, the exit code as an integer. -/
inductive Value where
  | str (s : String)
  | int (n : Int)
deriving DecidableEq

/-- Serialized file content: the key/value pairs of the YAML document,
in the order the encoder emits them. -/
abbrev Payload := List (String × Value)

/-- The filesystem: paths mapped to file contents, most recent first. -/
abbrev FS := List (String × Payload)

def FS.setFile (fs : FS) (path : String) (content : Payload) : FS :=
  (path, content) :: fs

def FS.readFile (fs : FS) (path : String) : Option Payload :=
  fs.lookup path

/-- The `Tombstone` struct.  `born`, `died`, `exitCode` carry the
`json:",omitempty"` tag (nil pointer, omitted when unset); `graveyard`
and `name` carry `json:"-"` (never serialized).  The in-process
`fileLock` mutex only sequences writes and has no sequential effect,
so it is not represented. -/
structure Tombstone where
  born : Option String
  died : Option String
  exitCode : Option Int
  graveyard : String
  name : String
deriving DecidableEq

/-- `filepath.Join(graveyard, name)` for already-clean components. -/
def joinPath (dir file : String) : String := dir ++ "/" ++ file

/-- `func (t *Tombstone) Path() string`. -/
def Tombstone.path (t : Tombstone) : String := joinPath t.graveyard t.name

/-- The pairs `yaml.Marshal` (via the JSON struct tags) produces for a
record: `Born`, `Died`, `ExitCode`, each present only when the pointer
is non-nil; `Graveyard` and `Name` are tagged `json:"-"` and never
appear. -/
def marshalPairs (t : Tombstone) : Payload :=
  (match t.born with
   | some b => [("Born", Value.str b)]
   | none => []) ++
  (match t.died with
   | some d => [("Died", Value.str d)]
   | none => []) ++
  (match t.exitCode with
   | some c => [("ExitCode", Value.int c)]
   | none => [])

/-- Decode one string-typed field: absent keys leave the current value
(`yaml.Unmarshal` merges into the existing struct), a key of the wrong
type is a decoding error. -/
def fieldStr (p : Payload) (key : String) (cur : Option String) :
    Except String (Option String) :=
  match p.lookup key with
  | none => .ok cur
  | some (Value.str s) => .ok (some s)
  | some (Value.int _) => .error ("cannot unmarshal field " ++ key)

/-- Decode one integer-typed field, as `fieldStr`. -/
def fieldInt (p : Payload) (key : String) (cur : Option Int) :
    Except String (Option Int) :=
  match p.lookup key with
  | none => .ok cur
  | some (Value.int n) => .ok (some n)
  | some (Value.str _) => .error ("cannot unmarshal field " ++ key)

/-- `yaml.Unmarshal(bytes, &t)`: decodes the three tagged fields into
the existing record; unknown keys (including a `Graveyard` or `Name`
key in the file) are ignored, matching `json:"-"`. -/
def unmarshalPairs (p : Payload) (t : Tombstone) : Except String Tombstone := do
  let born ← fieldStr p "Born" t.born
  let died ← fieldStr p "Died" t.died
  let exitCode ← fieldInt p "ExitCode" t.exitCode
  .ok { t with born := born, died := died, exitCode := exitCode }

/-- Injected outcomes of the fallible calls `Write` makes, in program
order: `os.MkdirAll`, `os.Create`, `yaml.Marshal`, `file.Write`. -/
structure WriteEnv where
  mkdirFails : Bool
  createFails : Bool
  marshalFails : Bool
  writeFails : Bool
deriving DecidableEq

/-- The all-succeed environment. -/
def WriteEnv.ok : WriteEnv := ⟨false, false, false, false⟩

/-- `func (t *Tombstone) Write() error`.  Mirrors the Go control flow:
MkdirAll error returned as-is; Create error wrapped; a successful
Create truncates the file; Marshal error wrapped (file stays
truncated); the return value of `file.Write(pretty)` is IGNORED by the
code, so a failed content write still returns nil with the file left
truncated. -/
def Tombstone.write (t : Tombstone) (env : WriteEnv) (fs : FS) :
    Option String × FS :=
  if env.mkdirFails then (some "mkdir error", fs)
  else if env.createFails then (some "failed to create tombstone file", fs)
  else
    let fs1 := fs.setFile t.path []
    if env.marshalFails then (some "failed to marshal tombstone yaml", fs1)
    else if env.writeFails then (none, fs1)
    else (none, fs1.setFile t.path (marshalPairs t))

/-- Error result of `Read`: the two wrapped failure modes of the Go
function, `failed to read tombstone file` versus `failed to unmarshal
tombstone yaml`. -/
inductive ReadError where
  | fileRead (msg : String)
  | unmarshal (msg : String)
deriving DecidableEq

/-- `func Read(graveyard, name string) (*Tombstone, error)`: builds a
fresh record whose `Graveyard`/`Name` come from the arguments, reads
the file at its path, then unmarshals into it. -/
def Tombstone.read (graveyard name : String) (fs : FS) :
    Except ReadError Tombstone :=
  let t : Tombstone :=
    { born := none, died := none, exitCode := none
      graveyard := graveyard, name := name }
  match fs.readFile t.path with
  | none => .error (ReadError.fileRead "failed to read tombstone file")
  | some p =>
    match unmarshalPairs p t with
    | .error m => .error (ReadError.unmarshal ("failed to unmarshal tombstone yaml: " ++ m))
    | .ok t2 => .ok t2

/-- `func (t *Tombstone) RecordBirth(ctx) error`: sets `Born` to the
current time (`now`, injected), then writes; a write error is wrapped.
Returns (error, the mutated record, the filesystem). -/
def Tombstone.recordBirth (t : Tombstone) (now : String) (env : WriteEnv)
    (fs : FS) : Option String × Tombstone × FS :=
  let t2 := { t with born := some now }
  match t2.write env fs with
  | (some e, fs2) => (some ("failed to create tombstone: " ++ e), t2, fs2)
  | (none, fs2) => (none, t2, fs2)

/-- `func (t *Tombstone) RecordDeath(ctx, exitCode) error`: sets `Died`
to the current time and `ExitCode` to the argument, then writes; a
write error is wrapped.  No check that a birth was recorded. -/
def Tombstone.recordDeath (t : Tombstone) (exitCode : Int) (now : String)
    (env : WriteEnv) (fs : FS) : Option String × Tombstone × FS :=
  let t2 := { t with died := some now, exitCode := some exitCode }
  match t2.write env fs with
  | (some e, fs2) => (some ("failed to update tombstone: " ++ e), t2, fs2)
  | (none, fs2) => (none, t2, fs2)

/-!
The directory watcher (`Watch`) and its worker goroutine.

`Watch(ctx, graveyard, eventHandler)` in the Go code:
1. creates an fsnotify watcher (fatal error if that fails),
2. spawns ONE background goroutine that loops over a `select` of the
   context, the event channel and the error channel,
3. calls `watcher.Add(graveyard)` (fatal error if that fails),
4. lists the graveyard with `ioutil.ReadDir` (fatal error if that
   fails), and
5. in the CALLING goroutine, synthesizes one Create event per listed
   file and invokes the handler on it; a handler error ABORTS this
   loop and is returned to the caller of `Watch`.

The handler is modelled by its success/failure behaviour, a function
`Event → Bool` (`true` = nil error); logging is a no-op.
-/

/-- fsnotify operation kinds. -/
inductive Op where
  | create
  | write
  | remove
  | rename
  | chmod
deriving DecidableEq

/-- `fsnotify.Event`: a path and an operation kind. -/
structure Event where
  name : String
  op : Op
deriving DecidableEq

/-- One arrival at the worker's `select`: context cancellation, the
event channel yielding a value or closing, or the error channel
yielding a value or closing. -/
inductive WInput where
  | ctxDone
  | ev (e : Event)
  | evClosed
  | fsErr (s : String)
  | errClosed
deriving DecidableEq

/-- The worker goroutine's loop, applied to the sequence of arrivals it
observes: cancellation or a closed channel ends the loop; an event is
passed to the handler, whose error is only logged (`if err != nil`
branch) before the loop continues; a subsystem error is logged and the
loop continues.  Returns the events delivered to the handler. -/
def workerRun (handlerOk : Event → Bool) : List WInput → List Event
  | [] => []
  | WInput.ctxDone :: _ => []
  | WInput.ev e :: rest =>
    if handlerOk e then e :: workerRun handlerOk rest
    else e :: workerRun handlerOk rest
  | WInput.evClosed :: _ => []
  | WInput.fsErr _ :: rest => workerRun handlerOk rest
  | WInput.errClosed :: _ => []

/-- The bootstrap loop at the end of `Watch`: for each listed file, a
synthetic Create event at `filepath.Join(graveyard, f.Name())` is
handed to the handler; on handler error the loop stops and the wrapped
error is returned.  Returns the delivered events and the error. -/
def bootstrapRun (graveyard : String) (handlerOk : Event → Bool) :
    List String → List Event × Option String
  | [] => ([], none)
  | f :: rest =>
    let e : Event := ⟨joinPath graveyard f, Op.create⟩
    if handlerOk e then
      let r := bootstrapRun graveyard handlerOk rest
      (e :: r.1, r.2)
    else ([e], some "failed handling existing tombstone")

/-- Injected outcomes of the fallible setup calls of `Watch`, in
program order: `fsnotify.NewWatcher`, `watcher.Add`, and the result of
`ioutil.ReadDir` on the graveyard. -/
structure WatchEnv where
  newWatcherFails : Bool
  addFails : Bool
  listResult : Except String (List String)

/-- The caller-visible behaviour of `Watch`: the bootstrap events
delivered to the handler in the calling goroutine, and the error
`Watch` returns.  (The worker goroutine spawned between NewWatcher and
Add is modelled separately by `workerRun` / `WStep`.) -/
def watch (env : WatchEnv) (graveyard : String) (handlerOk : Event → Bool) :
    List Event × Option String :=
  if env.newWatcherFails then ([], some "failed to create watcher")
  else if env.addFails then ([], some "failed to add watcher")
  else
    match env.listResult with
    | .error _ => ([], some "failed to read graveyard dir")
    | .ok files => bootstrapRun graveyard handlerOk files

/-- A delivery to the handler, tagged with which code path performed
it: the bootstrap loop in `Watch` or the worker goroutine. -/
inductive Delivery where
  | boot (e : Event)
  | live (e : Event)
deriving DecidableEq

/-- Interleaving state of the two concurrent threads after `Watch` has
spawned the worker and `watcher.Add` succeeded: the bootstrap events
the calling goroutine still has to deliver, the live notifications
pending on the worker's channel, and the deliveries made so far. -/
structure WatchConc where
  bootQueue : List Event
  liveQueue : List Event
  trace : List Delivery
deriving DecidableEq

/-- One scheduler step: either the calling goroutine delivers its next
bootstrap event, or the worker goroutine consumes its next pending
notification.  Nothing orders the two threads relative to each
other. -/
inductive WStep : WatchConc → WatchConc → Prop
  | mainB (e : Event) (rest live : List Event) (tr : List Delivery) :
      WStep ⟨e :: rest, live, tr⟩ ⟨rest, live, tr ++ [Delivery.boot e]⟩
  | workL (e : Event) (boot rest : List Event) (tr : List Delivery) :
      WStep ⟨boot, e :: rest, tr⟩ ⟨boot, rest, tr ++ [Delivery.live e]⟩

/-- Reachability under the scheduler. -/
def WReach : WatchConc → WatchConc → Prop := Relation.ReflTransGen WStep

/-- `true` when every bootstrap delivery in the trace precedes every
live delivery. -/
def allBootFirst : List Delivery → Bool
  | [] => true
  | Delivery.boot _ :: rest => allBootFirst rest
  | Delivery.live _ :: rest =>
    rest.all (fun d => match d with
      | Delivery.live _ => true
      | Delivery.boot _ => false)

/-- The bootstrap deliveries of a trace, in order. -/
def bootsOf (tr : List Delivery) : List Event :=
  tr.filterMap (fun d => match d with
    | Delivery.boot e => some e
    | Delivery.live _ => none)

/-- The live deliveries of a trace, in order. -/
def livesOf (tr : List Delivery) : List Event :=
  tr.filterMap (fun d => match d with
    | Delivery.boot _ => none
    | Delivery.live e => some e)

/-!
`func (t *Tombstone) String() string`: `json.Marshal(t)` uses the same
struct tags as `yaml.Marshal`, so it serializes exactly `marshalPairs`;
the result is a single-line JSON object.  On a marshalling error the
function logs and returns the literal `"\x7b\x7d"`.
-/

/-- JSON rendering of one value.  (`json.Marshal` escapes control
characters inside strings; our opaque timestamp strings are rendered
verbatim, so single-line-ness below is stated for newline-free field
values.) -/
def renderValue : Value → String
  | Value.str s => "\"" ++ s ++ "\""
  | Value.int n => toString n

/-- Compact single-line JSON object for a payload. -/
def jsonRender (p : Payload) : String :=
  "\x7b" ++ String.intercalate ","
    (p.map (fun kv => "\"" ++ kv.1 ++ "\":" ++ renderValue kv.2)) ++ "\x7d"

/-- `func (t *Tombstone) String() string`: on marshal error (injected)
logs and returns the fixed placeholder, otherwise the single-line JSON
of the record's tagged fields. -/
def Tombstone.render (t : Tombstone) (marshalFails : Bool) : String :=
  if marshalFails then "\x7b\x7d" else jsonRender (marshalPairs t)

/-- Claim C1: writing a record with any subset of Born/Died/ExitCode
populated and then reading the same (graveyard, name) returns a record
with those three fields equal to the written values and with
Graveyard/Name taken from the Read arguments. -/
theorem write_read_roundtrip (born died : Option String) (exitCode : Option Int)
    (g n : String) (fs : FS) :
    Tombstone.read g n
      ((Tombstone.mk born died exitCode g n).write WriteEnv.ok fs).2 =
      Except.ok (Tombstone.mk born died exitCode g n) := by
  rcases born with _ | b <;> rcases died with _ | d <;> rcases exitCode with _ | c <;>
    simp [Tombstone.read, Tombstone.write, WriteEnv.ok, FS.readFile, FS.setFile,
      marshalPairs, unmarshalPairs, fieldStr, fieldInt, Tombstone.path, List.lookup] <;>
    rfl

/-- Claim C2 (code-bug evidence): when only the write of the serialized
content fails, `Write` still returns nil (success) while the target
file is left truncated, not holding the record's serialization —
`file.Write(pretty)`'s error is ignored by the code. -/
theorem write_swallows_content_write_error :
    ((Tombstone.mk (some "2020-01-01T00:00:00Z") none none "grave" "app").write
        (WriteEnv.mk false false false true) []).1 = none ∧
    ((Tombstone.mk (some "2020-01-01T00:00:00Z") none none "grave" "app").write
        (WriteEnv.mk false false false true) []).2.readFile
        (Tombstone.mk (some "2020-01-01T00:00:00Z") none none "grave" "app").path
      = some [] ∧
    marshalPairs (Tombstone.mk (some "2020-01-01T00:00:00Z") none none "grave" "app")
      ≠ [] := by
  refine ⟨rfl, rfl, ?_⟩
  decide

/-- Claim C3 counterexample: a handler that fails is invoked on the
bootstrap event for file `a`, the bootstrap loop stops (file `b` gets
no event), and the error IS propagated to the caller of `Watch`. -/
theorem watch_propagates_bootstrap_handler_error :
    (watch (WatchEnv.mk false false (Except.ok ["a", "b"])) "g" (fun _ => false)).2
      = some "failed handling existing tombstone" ∧
    Event.mk (joinPath "g" "b") Op.create ∉
      (watch (WatchEnv.mk false false (Except.ok ["a", "b"])) "g" (fun _ => false)).1 := by
  refine ⟨rfl, ?_⟩
  decide

/-- Claim C3 amended: a handler failure on a live event is only logged
and never alters which subsequent events the worker delivers; but a
handler failure on a synthetic bootstrap event stops the bootstrap loop
and is returned as an error by `Watch`. -/
theorem handler_failure_isolation (h : Event → Bool) (inputs : List WInput)
    (g f : String) (rest : List String)
    (hf : h (Event.mk (joinPath g f) Op.create) = false) :
    workerRun h inputs = workerRun (fun _ => true) inputs ∧
    watch (WatchEnv.mk false false (Except.ok (f :: rest))) g h =
      ([Event.mk (joinPath g f) Op.create], some "failed handling existing tombstone") := by
  constructor
  · induction inputs with
    | nil => rfl
    | cons i rest ih =>
      cases i with
      | ctxDone => rfl
      | evClosed => rfl
      | errClosed => rfl
      | fsErr s => simpa [workerRun] using ih
      | ev e =>
        simp only [workerRun, ih]
        split <;> rfl
  · simp [watch, bootstrapRun, hf]

/-- Witness for `handler_failure_isolation` at a concrete handler,
input list, graveyard and file list. -/
theorem handler_failure_isolation_witness :
    workerRun (fun _ => false) [WInput.ev (Event.mk "g/x" Op.write)] =
      workerRun (fun _ => true) [WInput.ev (Event.mk "g/x" Op.write)] ∧
    watch (WatchEnv.mk false false (Except.ok ["a"])) "g" (fun _ => false) =
      ([Event.mk (joinPath "g" "a") Op.create],
       some "failed handling existing tombstone") :=
  handler_failure_isolation (fun _ => false) [WInput.ev (Event.mk "g/x" Op.write)]
    "g" "a" [] rfl

/-- Helper: `bootstrapRun` delivers exactly one create event per listed
file, at the joined path, when the handler succeeds on each of them. -/
theorem bootstrapRun_complete (g : String) (h : Event → Bool) :
    ∀ files : List String,
      (∀ f ∈ files, h (Event.mk (joinPath g f) Op.create) = true) →
      bootstrapRun g h files =
        (files.map (fun f => Event.mk (joinPath g f) Op.create), none)
  | [], _ => rfl
  | f :: rest, hok => by
    have hf : h (Event.mk (joinPath g f) Op.create) = true :=
      hok f (List.mem_cons_self f rest)
    have ih := bootstrapRun_complete g h rest
      (fun x hx => hok x (List.mem_cons_of_mem f hx))
    simp [bootstrapRun, hf, ih]

/-- Claim C5 counterexample: with two files present and a handler that
fails, the second file never receives its bootstrap event, so the
handler is not invoked once per existing file. -/
theorem bootstrap_incomplete_on_handler_error :
    (bootstrapRun "yard" (fun _ => false) ["x", "y"]).1 =
      [Event.mk (joinPath "yard" "x") Op.create] ∧
    Event.mk (joinPath "yard" "y") Op.create ∉
      (bootstrapRun "yard" (fun _ => false) ["x", "y"]).1 := by
  refine ⟨rfl, ?_⟩
  decide

/-- Claim C5 amended: when subscription succeeds, listing succeeds, and
the handler succeeds on every bootstrap event, `Watch` invokes the
handler with exactly one create-kind event per listed file, at the
path `graveyard` joined with the file's name, and returns no error; a
handler failure instead aborts the remaining bootstrap deliveries. -/
theorem watch_bootstrap_completeness (g : String) (files : List String)
    (h : Event → Bool)
    (hok : ∀ f ∈ files, h (Event.mk (joinPath g f) Op.create) = true) :
    watch (WatchEnv.mk false false (Except.ok files)) g h =
      (files.map (fun f => Event.mk (joinPath g f) Op.create), none) := by
  simpa [watch] using bootstrapRun_complete g h files hok

/-- Witness for `watch_bootstrap_completeness` with two concrete files
and the always-succeeding handler. -/
theorem watch_bootstrap_completeness_witness :
    watch (WatchEnv.mk false false (Except.ok ["a", "b"])) "g" (fun _ => true) =
      (["a", "b"].map (fun f => Event.mk (joinPath "g" f) Op.create), none) :=
  watch_bootstrap_completeness "g" ["a", "b"] (fun _ => true) (fun _ _ => rfl)

/-- Claim C10: the record is mutated before persistence is attempted —
even when `RecordBirth`/`RecordDeath` return an error, the returned
record has `Born` (resp. `Died` and `ExitCode`) set; the mutation is
never rolled back. -/
theorem record_mutation_survives_write_error (t : Tombstone) (now : String)
    (exitCode : Int) (env : WriteEnv) (fs : FS)
    (hb : (t.recordBirth now env fs).1.isSome = true)
    (hd : (t.recordDeath exitCode now env fs).1.isSome = true) :
    (t.recordBirth now env fs).2.1.born = some now ∧
    (t.recordDeath exitCode now env fs).2.1.died = some now ∧
    (t.recordDeath exitCode now env fs).2.1.exitCode = some exitCode := by
  refine ⟨?_, ?_, ?_⟩
  · unfold Tombstone.recordBirth
    dsimp only
    split <;> rfl
  · unfold Tombstone.recordDeath
    dsimp only
    split <;> rfl
  · unfold Tombstone.recordDeath
    dsimp only
    split <;> rfl

/-- Witness for `record_mutation_survives_write_error`: a failing
directory creation makes both operations return an error, yet the
fields are set. -/
theorem record_mutation_survives_write_error_witness :
    ((Tombstone.mk none none none "g" "app").recordBirth "T1"
        (WriteEnv.mk true false false false) []).2.1.born = some "T1" ∧
    ((Tombstone.mk none none none "g" "app").recordDeath 3 "T1"
        (WriteEnv.mk true false false false) []).2.1.died = some "T1" ∧
    ((Tombstone.mk none none none "g" "app").recordDeath 3 "T1"
        (WriteEnv.mk true false false false) []).2.1.exitCode = some 3 :=
  record_mutation_survives_write_error (Tombstone.mk none none none "g" "app")
    "T1" 3 (WriteEnv.mk true false false false) [] rfl rfl

/-- `bootsOf` distributes over trace concatenation. -/
theorem bootsOf_append (a b : List Delivery) :
    bootsOf (a ++ b) = bootsOf a ++ bootsOf b :=
  List.filterMap_append a b _

/-- `livesOf` distributes over trace concatenation. -/
theorem livesOf_append (a b : List Delivery) :
    livesOf (a ++ b) = livesOf a ++ livesOf b :=
  List.filterMap_append a b _

/-- Claim C4 counterexample: from a state with one pending bootstrap
event and one pending live notification, the scheduler can reach a
drained state whose trace delivers the live event FIRST — the worker
goroutine runs concurrently with the bootstrap loop, so bootstrap
deliveries are not ordered before live ones. -/
theorem live_event_delivered_before_bootstrap :
    WReach
      (WatchConc.mk [Event.mk "g/a" Op.create] [Event.mk "g/x" Op.write] [])
      (WatchConc.mk [] []
        [Delivery.live (Event.mk "g/x" Op.write),
         Delivery.boot (Event.mk "g/a" Op.create)]) ∧
    allBootFirst
      [Delivery.live (Event.mk "g/x" Op.write),
       Delivery.boot (Event.mk "g/a" Op.create)] = false := by
  constructor
  · refine Relation.ReflTransGen.head
      (WStep.workL (Event.mk "g/x" Op.write) [Event.mk "g/a" Op.create] [] []) ?_
    refine Relation.ReflTransGen.head
      (WStep.mainB (Event.mk "g/a" Op.create) [] []
        [Delivery.live (Event.mk "g/x" Op.write)]) ?_
    exact Relation.ReflTransGen.refl
  · rfl

/-- Claim C4 amended: the bootstrap loop (calling goroutine) and the
worker loop run concurrently, so their deliveries may interleave in
any order; within each kind, order is preserved — in every reachable
state the bootstrap deliveries made so far followed by the pending
bootstrap queue equal the original listing, and likewise for live
notifications. -/
theorem watch_interleaving_order (boots lives : List Event) (s : WatchConc)
    (h : WReach (WatchConc.mk boots lives []) s) :
    bootsOf s.trace ++ s.bootQueue = boots ∧
    livesOf s.trace ++ s.liveQueue = lives := by
  induction h with
  | refl => simp [bootsOf, livesOf]
  | tail hr step ih =>
    obtain ⟨ih1, ih2⟩ := ih
    cases step with
    | mainB e rest live tr =>
      simp only [bootsOf_append, livesOf_append] at *
      constructor
      · simpa [bootsOf, List.append_assoc] using ih1
      · simpa [livesOf] using ih2
    | workL e boot rest tr =>
      simp only [bootsOf_append, livesOf_append] at *
      constructor
      · simpa [bootsOf] using ih1
      · simpa [livesOf, List.append_assoc] using ih2

/-- Witness for `watch_interleaving_order` after one concrete bootstrap
delivery step. -/
theorem watch_interleaving_order_witness :
    bootsOf [Delivery.boot (Event.mk "g/a" Op.create)] ++ [] =
      [Event.mk "g/a" Op.create] ∧
    livesOf [Delivery.boot (Event.mk "g/a" Op.create)] ++ [Event.mk "g/x" Op.write] =
      [Event.mk "g/x" Op.write] :=
  watch_interleaving_order [Event.mk "g/a" Op.create] [Event.mk "g/x" Op.write]
    (WatchConc.mk [] [Event.mk "g/x" Op.write]
      [Delivery.boot (Event.mk "g/a" Op.create)])
    (Relation.ReflTransGen.single
      (WStep.mainB (Event.mk "g/a" Op.create) [] [Event.mk "g/x" Op.write] []))

/-- Claim C6: on a fresh record, `RecordBirth` makes a subsequent
`Read` return Born populated and Died/ExitCode unset; `RecordDeath 0`
afterwards makes `Read` return all three populated with exit code 0;
and `RecordDeath` applied to a fresh record (no birth recorded)
succeeds without any check, leaving Born unset. -/
theorem birth_then_death_sequencing (g n now1 now2 : String) (exitCode : Int)
    (fs : FS) :
    ((Tombstone.mk none none none g n).recordBirth now1 WriteEnv.ok fs).1 = none ∧
    Tombstone.read g n
        ((Tombstone.mk none none none g n).recordBirth now1 WriteEnv.ok fs).2.2 =
      Except.ok (Tombstone.mk (some now1) none none g n) ∧
    Tombstone.read g n
        ((((Tombstone.mk none none none g n).recordBirth now1 WriteEnv.ok
              fs).2.1).recordDeath 0 now2 WriteEnv.ok
            ((Tombstone.mk none none none g n).recordBirth now1 WriteEnv.ok
              fs).2.2).2.2 =
      Except.ok (Tombstone.mk (some now1) (some now2) (some 0) g n) ∧
    ((Tombstone.mk none none none g n).recordDeath exitCode now2 WriteEnv.ok fs).1
      = none ∧
    Tombstone.read g n
        ((Tombstone.mk none none none g n).recordDeath exitCode now2 WriteEnv.ok
          fs).2.2 =
      Except.ok (Tombstone.mk none (some now2) (some exitCode) g n) := by
  refine ⟨rfl, ?_, ?_, rfl, ?_⟩ <;>
    simp [Tombstone.read, Tombstone.recordBirth, Tombstone.recordDeath,
      Tombstone.write, WriteEnv.ok, FS.readFile, FS.setFile, marshalPairs,
      unmarshalPairs, fieldStr, fieldInt, Tombstone.path, List.lookup] <;>
    rfl

/-- Claim C7: `Read` on an absent file returns the file-read error (it
never returns an all-unset record as valid data); on a present file
with malformed content it returns the distinct unmarshal error; the
two error forms never coincide. -/
theorem read_failure_modes (g n : String) (fs1 fs2 : FS)
    (habs : FS.readFile fs1 (joinPath g n) = none)
    (hbad : FS.readFile fs2 (joinPath g n) =
      some [("ExitCode", Value.str "boom")]) :
    Tombstone.read g n fs1 =
      Except.error (ReadError.fileRead "failed to read tombstone file") ∧
    (∃ m, Tombstone.read g n fs2 = Except.error (ReadError.unmarshal m)) ∧
    (∀ m1 m2, ReadError.fileRead m1 ≠ ReadError.unmarshal m2) := by
  have habs2 : fs1.readFile (g ++ "/" ++ n) = none := habs
  have hbad2 : fs2.readFile (g ++ "/" ++ n) =
      some [("ExitCode", Value.str "boom")] := hbad
  refine ⟨?_, ?_, ?_⟩
  · simp [Tombstone.read, Tombstone.path, joinPath, habs2]
  · refine ⟨"failed to unmarshal tombstone yaml: cannot unmarshal field ExitCode", ?_⟩
    simp only [Tombstone.read, Tombstone.path, joinPath, hbad2, unmarshalPairs,
      fieldStr, fieldInt, List.lookup]
    rfl
  · intro m1 m2 hcontra
    exact ReadError.noConfusion hcontra

/-- Witness for `read_failure_modes`: an empty filesystem and one
holding a malformed payload at `g/app`. -/
theorem read_failure_modes_witness :
    Tombstone.read "g" "app" [] =
      Except.error (ReadError.fileRead "failed to read tombstone file") ∧
    (∃ m, Tombstone.read "g" "app"
        [(joinPath "g" "app", [("ExitCode", Value.str "boom")])] =
      Except.error (ReadError.unmarshal m)) ∧
    (∀ m1 m2, ReadError.fileRead m1 ≠ ReadError.unmarshal m2) :=
  read_failure_modes "g" "app" []
    [(joinPath "g" "app", [("ExitCode", Value.str "boom")])] rfl
    (by simp [FS.readFile, List.lookup])

/-- Claim C8: the serialized payload carries at most the keys `Born`,
`Died`, `ExitCode`, in that order; each key is present exactly when
the corresponding field is set; `Graveyard` and `Name` never appear. -/
theorem marshal_payload_shape (t : Tombstone) :
    ((marshalPairs t).map Prod.fst).Sublist ["Born", "Died", "ExitCode"] ∧
    ("Born" ∈ (marshalPairs t).map Prod.fst ↔ t.born.isSome = true) ∧
    ("Died" ∈ (marshalPairs t).map Prod.fst ↔ t.died.isSome = true) ∧
    ("ExitCode" ∈ (marshalPairs t).map Prod.fst ↔ t.exitCode.isSome = true) ∧
    "Graveyard" ∉ (marshalPairs t).map Prod.fst ∧
    "Name" ∉ (marshalPairs t).map Prod.fst := by
  rcases t with ⟨born, died, exitCode, g, n⟩
  rcases born with _ | b <;> rcases died with _ | d <;> rcases exitCode with _ | c <;>
    refine ⟨by simp [marshalPairs], ?_, ?_, ?_, ?_, ?_⟩ <;>
    simp [marshalPairs] <;> decide

/-- `Nat.digitChar` never produces a newline. -/
theorem digitChar_ne_newline : ∀ n : Nat, Nat.digitChar n ≠ '\n'
  | 0 => by decide
  | 1 => by decide
  | 2 => by decide
  | 3 => by decide
  | 4 => by decide
  | 5 => by decide
  | 6 => by decide
  | 7 => by decide
  | 8 => by decide
  | 9 => by decide
  | 10 => by decide
  | 11 => by decide
  | 12 => by decide
  | 13 => by decide
  | 14 => by decide
  | 15 => by decide
  | (k + 16) => by
    unfold Nat.digitChar
    repeat rw [if_neg (by omega)]
    decide

/-- `Nat.toDigitsCore` never introduces a newline. -/
theorem toDigitsCore_no_newline (b : Nat) :
    ∀ (fuel n : Nat) (ds : List Char), '\n' ∉ ds →
      '\n' ∉ Nat.toDigitsCore b fuel n ds := by
  intro fuel
  induction fuel with
  | zero => intro n ds hds; simpa [Nat.toDigitsCore] using hds
  | succ fuel ih =>
    intro n ds hds
    unfold Nat.toDigitsCore
    dsimp only
    have hcons : '\n' ∉ Nat.digitChar (n % b) :: ds := by
      intro hmem
      rcases List.mem_cons.mp hmem with h | h
      · exact digitChar_ne_newline (n % b) h.symm
      · exact hds h
    split
    · exact hcons
    · exact ih (n / b) _ hcons

/-- `Nat.repr` never contains a newline. -/
theorem nat_repr_no_newline (n : Nat) : '\n' ∉ (Nat.repr n).toList := by
  have h := toDigitsCore_no_newline 10 (n + 1) n [] (by simp)
  simpa [Nat.repr, Nat.toDigits, List.asString, String.toList] using h

/-- `toString` of an integer never contains a newline. -/
theorem int_toString_no_newline (n : Int) : '\n' ∉ (toString n).toList := by
  cases n with
  | ofNat m => exact nat_repr_no_newline m
  | negSucc m =>
    show '\n' ∉ ("-" ++ Nat.repr (m + 1)).data
    rw [String.data_append]
    intro hmem
    rcases List.mem_append.mp hmem with h | h
    · simp [String.data] at h
    · exact nat_repr_no_newline (m + 1) h

/-- `String.intercalate.go` keeps the output newline-free when the
accumulator, separator and all elements are. -/
theorem intercalate_go_no_newline (sep : String) :
    ∀ (l : List String) (acc : String), '\n' ∉ acc.toList → '\n' ∉ sep.toList →
      (∀ x ∈ l, '\n' ∉ x.toList) →
      '\n' ∉ (String.intercalate.go acc sep l).toList := by
  intro l
  induction l with
  | nil =>
    intro acc hacc _ _
    simpa [String.intercalate.go] using hacc
  | cons x rest ih =>
    intro acc hacc hsep hl
    unfold String.intercalate.go
    refine ih (acc ++ sep ++ x) ?_ hsep (fun y hy => hl y (List.mem_cons_of_mem x hy))
    show '\n' ∉ (acc ++ sep ++ x).data
    rw [String.data_append, String.data_append]
    intro hmem
    rcases List.mem_append.mp hmem with h | h
    · rcases List.mem_append.mp h with h2 | h2
      · exact hacc h2
      · exact hsep h2
    · exact hl x (List.mem_cons_self x rest) h

/-- `String.intercalate` of newline-free strings with a newline-free
separator is newline-free. -/
theorem intercalate_no_newline (sep : String) (l : List String)
    (hsep : '\n' ∉ sep.toList) (hl : ∀ x ∈ l, '\n' ∉ x.toList) :
    '\n' ∉ (String.intercalate sep l).toList := by
  cases l with
  | nil => simp [String.intercalate, String.toList, String.data]
  | cons x rest =>
    unfold String.intercalate
    exact intercalate_go_no_newline sep rest x
      (hl x (List.mem_cons_self x rest)) hsep
      (fun y hy => hl y (List.mem_cons_of_mem x hy))

/-- Appending newline-free strings stays newline-free. -/
theorem no_newline_append (a b : String) (ha : '\n' ∉ a.toList)
    (hb : '\n' ∉ b.toList) : '\n' ∉ (a ++ b).toList := by
  show '\n' ∉ (a ++ b).data
  rw [String.data_append]
  intro h
  rcases List.mem_append.mp h with h | h
  · exact ha h
  · exact hb h

/-- Every entry of `marshalPairs` is one of the three tagged fields. -/
theorem mem_marshalPairs (t : Tombstone) (kv : String × Value)
    (h : kv ∈ marshalPairs t) :
    (∃ b, t.born = some b ∧ kv = ("Born", Value.str b)) ∨
    (∃ d, t.died = some d ∧ kv = ("Died", Value.str d)) ∨
    (∃ c, t.exitCode = some c ∧ kv = ("ExitCode", Value.int c)) := by
  rcases t with ⟨born, died, exitCode, g, n⟩
  rcases born with _ | b <;> rcases died with _ | d <;> rcases exitCode with _ | c <;>
    simp [marshalPairs] at h ⊢ <;> tauto

/-- Claim C9: `String` never fails the caller: on an (injected) marshal
error it returns the fixed placeholder, and otherwise it returns the
compact single-line JSON of the record — containing no newline when
the timestamp fields are newline-free. -/
theorem render_total_and_single_line (t : Tombstone)
    (hborn : ∀ b ∈ t.born, '\n' ∉ b.toList)
    (hdied : ∀ d ∈ t.died, '\n' ∉ d.toList) :
    t.render true = "\x7b\x7d" ∧
    t.render false = jsonRender (marshalPairs t) ∧
    '\n' ∉ (t.render false).toList := by
  refine ⟨rfl, rfl, ?_⟩
  show '\n' ∉ (jsonRender (marshalPairs t)).toList
  unfold jsonRender
  refine no_newline_append _ _ (no_newline_append _ _ (by decide) ?_) (by decide)
  refine intercalate_no_newline _ _ (by decide) ?_
  intro x hx
  rcases List.mem_map.mp hx with ⟨kv, hkv, rfl⟩
  rcases mem_marshalPairs t kv hkv with ⟨b, hb, rfl⟩ | ⟨d, hd, rfl⟩ | ⟨c, hc, rfl⟩ <;>
    dsimp only [renderValue]
  · exact no_newline_append _ _ (by decide)
      (no_newline_append _ _ (no_newline_append _ _ (by decide) (hborn b hb)) (by decide))
  · exact no_newline_append _ _ (by decide)
      (no_newline_append _ _ (no_newline_append _ _ (by decide) (hdied d hd)) (by decide))
  · exact no_newline_append _ _ (by decide) (int_toString_no_newline c)

/-- Witness for `render_total_and_single_line` at a concrete record. -/
theorem render_total_and_single_line_witness :
    (Tombstone.mk (some "2020-01-01T00:00:00Z") none (some (-3)) "g" "app").render
        true = "\x7b\x7d" ∧
    (Tombstone.mk (some "2020-01-01T00:00:00Z") none (some (-3)) "g" "app").render
        false =
      jsonRender (marshalPairs
        (Tombstone.mk (some "2020-01-01T00:00:00Z") none (some (-3)) "g" "app")) ∧
    '\n' ∉
      ((Tombstone.mk (some "2020-01-01T00:00:00Z") none (some (-3)) "g" "app").render
        false).toList :=
  render_total_and_single_line
    (Tombstone.mk (some "2020-01-01T00:00:00Z") none (some (-3)) "g" "app")
    (by intro b hb; cases hb; decide) (by intro d hd; cases hd)
